import Mathlib

/-!
Verification of the incremental sync engine: a shallow embedding of the core of the `integration` repository: the
`SyncCursor` checkpoint entity, the `Credentials` / `IntegrationAccount`
aggregate with its credential policy, the paginated object-sync loop
(`sync_quickbooks_objects`), the per-cycle orchestrator (`run_sync`), and
the upsert-based object repository (`save_batch`).

Conventions of the embedding:
* Python `datetime` values are modelled by `PyDatetime`: a wall-clock
  reading in seconds (`Int`) plus an optional UTC offset in seconds
  (`none` = naive).  `datetime.utcnow()` is passed in explicitly as a
  naive `now` parameter, so every operation is a pure function.
* Python `dict` cursor payloads (only ever `{"start_position": n}` in the
  code) are modelled as association lists `List (String × Int)`; Python
  truthiness of `Optional[dict]` is `some d` with `d ≠ []`.
* Methods that mutate `self` in place become functions returning the new
  value; a method that raises becomes `Except String`, and raising before
  any field assignment corresponds to returning `.error` (no new state).
-/

namespace Integration

/-- Python `datetime`: wall-clock seconds plus optional tz offset (seconds).
`tz = none` models a naive datetime. -/
structure PyDatetime where
  wall : Int
  tz : Option Int
deriving DecidableEq, Repr

/-- A naive datetime (no tzinfo), as produced by `datetime.utcnow()`. -/
def PyDatetime.naive (t : Int) : PyDatetime := ⟨t, none⟩

/-- Applies `dt.astimezone(timezone.utc).replace(tzinfo=None)` when `dt.tzinfo is not
None`, identity otherwise: normalise to a naive UTC reading. -/
def PyDatetime.normUTC (d : PyDatetime) : PyDatetime :=
  match d.tz with
  | none => d
  | some off => ⟨d.wall - off, none⟩

/-- The `IntegrationType` enum (`integration_account.py`). -/
inductive IntegrationType where
  | quickbooks
deriving DecidableEq, Repr

/-- The `ObjectType` enum (`sync_cursor.py`). -/
inductive ObjectType where
  | customer
  | invoice
deriving DecidableEq, Repr

/-- The `SyncStatus` enum (`sync_cursor.py`). -/
inductive SyncStatus where
  | success
  | failure
  | in_progress
deriving DecidableEq, Repr

/-- The only dict shape the sync path stores in `cursor_data` is
`{"start_position": n}`; we model a `dict` as an association list from
string keys to integers. -/
abbrev PyDict := List (String × Int)

/-- Python truthiness of an `Optional[dict]`: `None` and `{}` are falsy. -/
def pyDictTruthy (d : Option PyDict) : Bool :=
  match d with
  | none => false
  | some l => !l.isEmpty

/-- Key lookup, `d["k"]` / `"k" in d`. -/
def pyDictGet (d : PyDict) (k : String) : Option Int :=
  (d.find? (fun p => p.1 = k)).map (·.2)

/-- The `SyncCursor` dataclass (`sync_cursor.py`).  The `id` column is not
touched by any domain operation and is omitted. -/
structure SyncCursor where
  integration_type : IntegrationType
  external_account_id : String
  object_type : ObjectType
  last_synced_at : Option PyDatetime
  last_attempt_at : PyDatetime
  status : SyncStatus
  cursor_data : Option PyDict
  error_message : Option String
  records_synced : Nat
  created_at : PyDatetime
  updated_at : PyDatetime
deriving DecidableEq, Repr

namespace SyncCursor

/-- Embedding of `SyncCursor.advance_cursor`: normalise the new timestamp to naive UTC,
reject a backward move while the cursor is set (raising before any field is
assigned), otherwise advance every bookkeeping field in one step.
`now` stands for `datetime.utcnow()`. -/
def advance_cursor (c : SyncCursor) (new_timestamp : PyDatetime)
    (records_count : Nat) (cursor_data : Option PyDict) (now : Int) :
    Except String SyncCursor :=
  let nt := new_timestamp.normUTC
  match c.last_synced_at with
  | some ls =>
      let lsn := ls.normUTC
      if nt.wall < lsn.wall then
        .error "Cannot move cursor backward"
      else
        .ok { c with
          last_synced_at := some nt
          last_attempt_at := PyDatetime.naive now
          status := SyncStatus.success
          cursor_data := cursor_data
          error_message := none
          records_synced := c.records_synced + records_count
          updated_at := PyDatetime.naive now }
  | none =>
      .ok { c with
        last_synced_at := some nt
        last_attempt_at := PyDatetime.naive now
        status := SyncStatus.success
        cursor_data := cursor_data
        error_message := none
        records_synced := c.records_synced + records_count
        updated_at := PyDatetime.naive now }

/-- Embedding of `SyncCursor.mark_attempt`. -/
def mark_attempt (c : SyncCursor) (now : Int) : SyncCursor :=
  { c with
    last_attempt_at := PyDatetime.naive now
    status := SyncStatus.in_progress
    updated_at := PyDatetime.naive now }

/-- Embedding of `SyncCursor.mark_failure`: records the failure; the resume data is only
overwritten when the passed dict is truthy (`if cursor_data:`). -/
def mark_failure (c : SyncCursor) (error_message : String)
    (cursor_data : Option PyDict) (now : Int) : SyncCursor :=
  { c with
    last_attempt_at := PyDatetime.naive now
    status := SyncStatus.failure
    cursor_data := if pyDictTruthy cursor_data then cursor_data else c.cursor_data
    error_message := some error_message
    updated_at := PyDatetime.naive now }

/-- Embedding of `SyncCursor.get_cursor_value`. -/
def get_cursor_value (c : SyncCursor) : Option PyDatetime :=
  c.last_synced_at

end SyncCursor

/-- The `AccountStatus` enum (`integration_account.py`). -/
inductive AccountStatus where
  | active
  | expired
  | error
  | disconnected
deriving DecidableEq, Repr

/-- The `Credentials` value object.  Everywhere in the repository `expires_at`
is built from naive `datetime.utcnow()` arithmetic
(`CredentialPolicy.calculate_expiry_time`), so it is modelled directly as a
naive UTC reading in seconds. -/
structure Credentials where
  access_token : String
  refresh_token : String
  expires_at : Int
  token_type : String
deriving DecidableEq, Repr

namespace Credentials

/-- Embedding of `Credentials.is_expired`: `datetime.utcnow() >= self.expires_at`. -/
def is_expired (c : Credentials) (now : Int) : Bool :=
  decide (now ≥ c.expires_at)

/-- Embedding of `Credentials.needs_refresh`: compute
`buffer_time = expires_at - timedelta(minutes=buffer_minutes)` and test
`datetime.utcnow() >= buffer_time`. -/
def needs_refresh (c : Credentials) (buffer_minutes : Int) (now : Int) : Bool :=
  let buffer_time := c.expires_at - 60 * buffer_minutes
  decide (now ≥ buffer_time)

end Credentials

/-- The `IntegrationAccount` aggregate (`integration_account.py`); `id` is never
touched by domain operations and is omitted. -/
structure IntegrationAccount where
  integration_type : IntegrationType
  external_account_id : String
  credentials : Credentials
  status : AccountStatus
  created_at : PyDatetime
  updated_at : PyDatetime
deriving DecidableEq, Repr

namespace IntegrationAccount

/-- Construction of an `IntegrationAccount` runs `__post_init__`, which
raises `ValueError` on an empty account id, access token or refresh token,
in that order. -/
def make (integration_type : IntegrationType) (external_account_id : String)
    (credentials : Credentials) (status : AccountStatus)
    (created_at updated_at : PyDatetime) : Except String IntegrationAccount :=
  if external_account_id = "" then
    .error "external_account_id cannot be empty"
  else if credentials.access_token = "" then
    .error "access_token cannot be empty"
  else if credentials.refresh_token = "" then
    .error "refresh_token cannot be empty"
  else
    .ok { integration_type, external_account_id, credentials, status,
          created_at, updated_at }

/-- Embedding of `IntegrationAccount.update_credentials`: store the whole new bundle,
touch `updated_at`, and derive the lifecycle status from the new bundle's
expiry.  No validation is performed here. -/
def update_credentials (a : IntegrationAccount) (credentials : Credentials)
    (now : Int) : IntegrationAccount :=
  { a with
    credentials := credentials
    updated_at := PyDatetime.naive now
    status := if credentials.is_expired now then AccountStatus.expired
              else AccountStatus.active }

/-- Embedding of `IntegrationAccount.mark_error`. -/
def mark_error (a : IntegrationAccount) (now : Int) : IntegrationAccount :=
  { a with status := AccountStatus.error, updated_at := PyDatetime.naive now }

/-- Embedding of `IntegrationAccount.mark_disconnected`. -/
def mark_disconnected (a : IntegrationAccount) (now : Int) : IntegrationAccount :=
  { a with status := AccountStatus.disconnected, updated_at := PyDatetime.naive now }

end IntegrationAccount

namespace CredentialPolicy

/-- Constant `CredentialPolicy.DEFAULT_REFRESH_BUFFER_MINUTES`. -/
def DEFAULT_REFRESH_BUFFER_MINUTES : Int := 5

/-- Embedding of `CredentialPolicy.should_refresh_credentials`. -/
def should_refresh_credentials (account : IntegrationAccount)
    (buffer_minutes : Int) (now : Int) : Bool :=
  account.credentials.needs_refresh buffer_minutes now

/-- Embedding of `CredentialPolicy.is_token_expired`. -/
def is_token_expired (credentials : Credentials) (now : Int) : Bool :=
  credentials.is_expired now

/-- Embedding of `CredentialPolicy.calculate_expiry_time`:
`datetime.utcnow() + timedelta(seconds=expires_in_seconds)`. -/
def calculate_expiry_time (expires_in_seconds : Int) (now : Int) : Int :=
  now + expires_in_seconds

/-- Embedding of `CredentialPolicy.validate_credentials`.  (The `expires_at` falsiness
branch can never fire: a Python `datetime` object is always truthy.) -/
def validate_credentials (credentials : Credentials) : Bool :=
  if credentials.access_token = "" then false
  else if credentials.refresh_token = "" then false
  else true

end CredentialPolicy

/-- The enum value string `object_type.value` (Python `str`-enum value), used as the key of the
per-type result map in `run_sync`. -/
def ObjectType.value : ObjectType → String
  | .customer => "customer"
  | .invoice => "invoice"

/-- Vendor payloads are opaque dicts; the code observes only their Python
truthiness and the nested `payload.get("CustomerRef", {}).get("value")`
lookup, so the model carries exactly those observables next to the opaque
content. -/
structure Payload where
  truthy : Bool
  customerRef : Option String
  data : String
deriving DecidableEq, Repr

/-- The `QuickBooksObject` DTO (`quickbooks/models.py`); the loop reads only
`id`, `last_updated_time` and `raw_payload`. -/
structure QuickBooksObject where
  id : String
  last_updated_time : PyDatetime
  raw_payload : Payload
deriving DecidableEq, Repr

/-- The `RawExternalObject` entity (`raw_external_object.py`). -/
structure RawExternalObject where
  integration_type : IntegrationType
  external_account_id : String
  object_type : ObjectType
  external_object_id : String
  payload : Payload
  last_updated_time : PyDatetime
  created_at : PyDatetime
  updated_at : PyDatetime
deriving DecidableEq, Repr

/-- Constructing a `RawExternalObject` runs `__post_init__`: empty account
id, empty external object id, or a falsy payload raise `ValueError`, in
that order.  `created_at`/`updated_at` default to `datetime.utcnow()`. -/
def RawExternalObject.make (integration_type : IntegrationType)
    (external_account_id : String) (object_type : ObjectType)
    (external_object_id : String) (payload : Payload)
    (last_updated_time : PyDatetime) (now : Int) :
    Except String RawExternalObject :=
  if external_account_id = "" then
    .error "external_account_id cannot be empty"
  else if external_object_id = "" then
    .error "external_object_id cannot be empty"
  else if payload.truthy = false then
    .error "payload cannot be empty"
  else
    .ok { integration_type, external_account_id, object_type,
          external_object_id, payload, last_updated_time,
          created_at := PyDatetime.naive now, updated_at := PyDatetime.naive now }

/-- Row of `quickbooks.customers` (`db/models.py`); audit columns are not
read back by the sync path and are omitted. -/
structure QuickBooksCustomerRow where
  external_account_id : String
  qbo_id : String
  payload : Payload
  last_updated_time : PyDatetime
deriving DecidableEq, Repr

/-- Row of `quickbooks.invoices` (`db/models.py`). -/
structure QuickBooksInvoiceRow where
  external_account_id : String
  qbo_id : String
  customer_ref_value : Option String
  payload : Payload
  last_updated_time : PyDatetime
deriving DecidableEq, Repr

/-- The two tables touched by `SQLAlchemyQuickBooksRepository`. -/
structure DBState where
  customers : List QuickBooksCustomerRow
  invoices : List QuickBooksInvoiceRow
deriving DecidableEq, Repr

/-- Postgres `INSERT .. ON CONFLICT (external_account_id, qbo_id) DO UPDATE`
for one customer row: the conflicting row's payload and timestamp are replaced,
otherwise the row is appended. -/
def upsertCustomerRow (table : List QuickBooksCustomerRow)
    (r : QuickBooksCustomerRow) : List QuickBooksCustomerRow :=
  if table.any (fun x =>
      x.external_account_id = r.external_account_id ∧ x.qbo_id = r.qbo_id) then
    table.map (fun x =>
      if x.external_account_id = r.external_account_id ∧ x.qbo_id = r.qbo_id
      then r else x)
  else
    table ++ [r]

/-- Postgres `INSERT .. ON CONFLICT (external_account_id, qbo_id) DO UPDATE`
for one invoice row. -/
def upsertInvoiceRow (table : List QuickBooksInvoiceRow)
    (r : QuickBooksInvoiceRow) : List QuickBooksInvoiceRow :=
  if table.any (fun x =>
      x.external_account_id = r.external_account_id ∧ x.qbo_id = r.qbo_id) then
    table.map (fun x =>
      if x.external_account_id = r.external_account_id ∧ x.qbo_id = r.qbo_id
      then r else x)
  else
    table ++ [r]

/-- Embedding of `_save_customers`: build the value rows and upsert them in order. -/
def save_customers (db : DBState) (objs : List RawExternalObject) : DBState :=
  let values := objs.map (fun c =>
    QuickBooksCustomerRow.mk c.external_account_id c.external_object_id
      c.payload c.last_updated_time)
  { db with customers := values.foldl upsertCustomerRow db.customers }

/-- Embedding of `_save_invoices`: as for customers, with `customer_ref_value` extracted
from the payload (`None` when the payload is falsy). -/
def save_invoices (db : DBState) (objs : List RawExternalObject) : DBState :=
  let values := objs.map (fun i =>
    QuickBooksInvoiceRow.mk i.external_account_id i.external_object_id
      (if i.payload.truthy then i.payload.customerRef else none)
      i.payload i.last_updated_time)
  { db with invoices := values.foldl upsertInvoiceRow db.invoices }

/-- Embedding of `SQLAlchemyQuickBooksRepository.save_batch`: group the batch by object
type and upsert each group into its table. -/
def save_batch (db : DBState) (objects : List RawExternalObject) : DBState :=
  if objects.isEmpty then db
  else
    let customers := objects.filter (fun o => o.object_type = ObjectType.customer)
    let invoices := objects.filter (fun o => o.object_type = ObjectType.invoice)
    let db := if customers.isEmpty then db else save_customers db customers
    let db := if invoices.isEmpty then db else save_invoices db invoices
    db

/-- Python `<` on two datetimes: naive pairs compare wall clocks, aware
pairs compare instants, and a mixed pair raises `TypeError` (`none`). -/
def pyDatetimeLt (a b : PyDatetime) : Option Bool :=
  match a.tz, b.tz with
  | none, none => some (decide (a.wall < b.wall))
  | some oa, some ob => some (decide (a.wall - oa < b.wall - ob))
  | _, _ => none

/-- Python `max` over the page's `last_updated_time`s: keep the current
maximum unless a later element compares strictly greater; comparison
failures propagate as exceptions. -/
def pyListMax : List PyDatetime → Except String PyDatetime
  | [] => .error "max() arg is an empty sequence"
  | x :: xs =>
      xs.foldlM (fun cur y =>
        match pyDatetimeLt cur y with
        | some true => .ok y
        | some false => .ok cur
        | none => .error "cannot compare naive and aware datetimes") x

/-- The object-fetch capability, as the loop sees it: a page of objects for
a given `updated_since` filter and 1-based start offset, or a raised
transport error.  (The bound `MAX_RESULTS` ceiling lives behind this
interface.) -/
def Fetch : Type := Option PyDatetime → Int → Except String (List QuickBooksObject)

/-- State threaded through one run of `sync_quickbooks_objects`: the local
variables of the loop, the two repositories, plus observation traces of
every `cursor_repo.save` and every fetch invocation. -/
structure LoopState where
  cursor : SyncCursor
  start_position : Int
  total_synced : Nat
  db : DBState
  savedCursors : List SyncCursor
  fetchCalls : List (Option PyDatetime × Int)
deriving Repr

/-- Result of one iteration of the `while True` body. -/
inductive StepResult where
  | stop (st : LoopState)
  | next (st : LoopState)
  | raised (e : String) (st : LoopState)
deriving Repr

/-- The loop state carried by a step result, whichever way the iteration
went. -/
def StepResult.state : StepResult → LoopState
  | .stop st => st
  | .next st => st
  | .raised _ st => st

/-- The `except Exception` handler of `sync_quickbooks_objects`:
`cursor.mark_failure(str(e), cursor_data={"start_position": start_position})`,
persist, and re-raise. -/
def handleLoopError (e : String) (now : Int) (st : LoopState) : StepResult :=
  let c := st.cursor.mark_failure e (some [("start_position", st.start_position)]) now
  .raised e { st with cursor := c, savedCursors := st.savedCursors ++ [c] }

/-- The DTO→entity conversion loop: each `RawExternalObject(...)`
construction can raise in `__post_init__`. -/
def convertObjects (integration_type : IntegrationType)
    (external_account_id : String) (object_type : ObjectType)
    (objs : List QuickBooksObject) (now : Int) :
    Except String (List RawExternalObject) :=
  objs.mapM (fun o =>
    RawExternalObject.make integration_type external_account_id object_type
      o.id o.raw_payload o.last_updated_time now)

/-- One iteration of the page loop, with the `except` handler applied to
any exception raised inside it.  Mirrors the body order of the source:
fetch, empty-page break, convert, `save_batch`, page maximum, update
`total_synced`/`start_position`, `advance_cursor`, persist. -/
def syncPage (integration_type : IntegrationType)
    (external_account_id : String) (object_type : ObjectType)
    (fetch : Fetch) (now : Int) (st : LoopState) : StepResult :=
  let updatedSince := st.cursor.get_cursor_value
  let st := { st with fetchCalls := st.fetchCalls ++ [(updatedSince, st.start_position)] }
  match fetch updatedSince st.start_position with
  | .error e => handleLoopError e now st
  | .ok [] => .stop st
  | .ok (o :: os) =>
    let qb_objects := o :: os
    match convertObjects integration_type external_account_id object_type qb_objects now with
    | .error e => handleLoopError e now st
    | .ok raw_objects =>
      let db := save_batch st.db raw_objects
      match pyListMax (qb_objects.map (·.last_updated_time)) with
      | .error e => handleLoopError e now { st with db := db }
      | .ok latest_timestamp =>
        let batch_size := qb_objects.length
        let total := st.total_synced + batch_size
        let start := st.start_position + batch_size
        match st.cursor.advance_cursor latest_timestamp batch_size
            (some [("start_position", start)]) now with
        | .error e =>
            handleLoopError e now
              { st with db := db, total_synced := total, start_position := start }
        | .ok c =>
            .next { st with
                    cursor := c, db := db, total_synced := total,
                    start_position := start,
                    savedCursors := st.savedCursors ++ [c] }

/-- Outcome of one run of the loop: the returned
`{"count": .., "has_more": ..}` dict, a re-raised exception, or fuel
exhaustion (an artifact of the shallow embedding of `while True`). -/
inductive LoopOutcome where
  | ok (count : Nat) (has_more : Bool)
  | err (msg : String)
  | fuelOut
deriving DecidableEq, Repr

/-- The fuelled `while True` loop plus the completion code after `break`:
on an empty page, clear `cursor_data` by direct field assignment, persist,
and return `{"count": total_synced, "has_more": False}`. -/
def syncLoop (integration_type : IntegrationType)
    (external_account_id : String) (object_type : ObjectType)
    (fetch : Fetch) (now : Int) :
    Nat → LoopState → LoopOutcome × LoopState
  | 0, st => (LoopOutcome.fuelOut, st)
  | fuel + 1, st =>
    match syncPage integration_type external_account_id object_type fetch now st with
    | .stop st =>
        let c := { st.cursor with cursor_data := none }
        (LoopOutcome.ok st.total_synced false,
         { st with cursor := c, savedCursors := st.savedCursors ++ [c] })
    | .raised e st => (LoopOutcome.err e, st)
    | .next st =>
        syncLoop integration_type external_account_id object_type fetch now fuel st

/-- The cursor created lazily when `find_by_composite_key` returns nothing.
(`__post_init__` validation of the account id cannot fire on the sync path:
the orchestrator only reaches the loop with a resolved account, whose id
was validated at account construction.) -/
def freshCursor (integration_type : IntegrationType)
    (external_account_id : String) (object_type : ObjectType) (now : Int) :
    SyncCursor :=
  { integration_type, external_account_id, object_type,
    last_synced_at := none
    last_attempt_at := PyDatetime.naive now
    status := SyncStatus.in_progress
    cursor_data := none
    error_message := none
    records_synced := 0
    created_at := PyDatetime.naive now
    updated_at := PyDatetime.naive now }

/-- Start-offset determination of the loop:
`if cursor.cursor_data and "start_position" in cursor.cursor_data`. -/
def initialStartPosition (c : SyncCursor) : Int :=
  if pyDictTruthy c.cursor_data then
    match c.cursor_data with
    | some d => (pyDictGet d "start_position").getD 1
    | none => 1
  else 1

/-- Embedding of `SyncExternalObjectsService.sync_quickbooks_objects`: look up or create
the cursor, `mark_attempt` and persist it, determine the starting offset,
then run the page loop.  `cursor0` is what
`cursor_repo.find_by_composite_key` returned; `db0` is the object store. -/
def sync_quickbooks_objects (integration_type : IntegrationType)
    (external_account_id : String) (object_type : ObjectType)
    (cursor0 : Option SyncCursor) (fetch : Fetch) (now : Int)
    (db0 : DBState) (fuel : Nat) : LoopOutcome × LoopState :=
  let cursor :=
    match cursor0 with
    | some c => c
    | none => freshCursor integration_type external_account_id object_type now
  let cursor := cursor.mark_attempt now
  let start_position := initialStartPosition cursor
  let st : LoopState :=
    { cursor := cursor
      start_position := start_position
      total_synced := 0
      db := db0
      savedCursors := [cursor]
      fetchCalls := [] }
  syncLoop integration_type external_account_id object_type fetch now fuel st

/-- Constant `RunIntegrationSyncService.QUICKBOOKS_OBJECT_TYPES`. -/
def QUICKBOOKS_OBJECT_TYPES : List ObjectType := [ObjectType.customer, ObjectType.invoice]

/-- The external capabilities one sync cycle consumes: the per-type fetch
functions behind `QuickBooksAPIClient` and the OAuth refresh exchange. -/
structure CycleEnv where
  fetchCustomers : Fetch
  fetchInvoices : Fetch
  refresh_access_token : String → Except String Credentials

/-- Embedding of the `_fetch_objects_from_api` dispatch on the object type. -/
def fetchFor (env : CycleEnv) : ObjectType → Fetch
  | ObjectType.customer => env.fetchCustomers
  | ObjectType.invoice => env.fetchInvoices

/-- Persistent state one cycle reads and writes: the account row, the two
cursor rows and the object store. -/
structure CycleState where
  account : IntegrationAccount
  customerCursor : Option SyncCursor
  invoiceCursor : Option SyncCursor
  db : DBState
deriving Repr

/-- What `cursor_repo.find_by_composite_key` returns for a type. -/
def CycleState.cursorOf (st : CycleState) : ObjectType → Option SyncCursor
  | ObjectType.customer => st.customerCursor
  | ObjectType.invoice => st.invoiceCursor

/-- Store the cursor the loop left persisted for a type. -/
def CycleState.setCursor (st : CycleState) : ObjectType → SyncCursor → CycleState
  | ObjectType.customer, c => { st with customerCursor := some c }
  | ObjectType.invoice, c => { st with invoiceCursor := some c }

/-- One entry of the per-type result map of `run_sync`:
`{"status": "success", "count": n, "has_more": hm}` or
`{"status": "error", "error": msg}`. -/
inductive TypeResult where
  | success (count : Nat) (has_more : Bool)
  | error (msg : String)
deriving DecidableEq, Repr

/-- Result of one `run_sync` invocation: an exception propagated to the
caller, the per-type result map (keyed by `object_type.value`), or fuel
exhaustion inside some type's loop. -/
inductive CycleResult where
  | raised (e : String)
  | completed (results : List (String × TypeResult)) (st : CycleState)
  | fuelOut (st : CycleState)
deriving Repr

/-- Embedding of `_ensure_valid_credentials`: refresh and persist the account when the
credential policy says a refresh is due; a refresh failure propagates. -/
def ensure_valid_credentials (env : CycleEnv) (account : IntegrationAccount)
    (now : Int) : Except String IntegrationAccount :=
  if CredentialPolicy.should_refresh_credentials account
      CredentialPolicy.DEFAULT_REFRESH_BUFFER_MINUTES now then
    match account.integration_type with
    | IntegrationType.quickbooks =>
      match env.refresh_access_token account.credentials.refresh_token with
      | .error e => .error e
      | .ok new_credentials => .ok (account.update_credentials new_credentials now)
  else
    .ok account

/-- The `for object_type in object_types` loop of `run_sync`: each type's
sync runs inside its own `try`, a success appends a success entry, an
exception is caught and appends an error entry, and iteration continues
either way. -/
def runTypes (env : CycleEnv) (now : Int) (fuel : Nat) :
    List ObjectType → CycleState → List (String × TypeResult) → CycleResult
  | [], st, results => .completed results st
  | t :: ts, st, results =>
    let r := sync_quickbooks_objects st.account.integration_type
        st.account.external_account_id t (st.cursorOf t) (fetchFor env t)
        now st.db fuel
    let st' := CycleState.setCursor { st with db := r.2.db } t r.2.cursor
    match r.1 with
    | LoopOutcome.ok n hm =>
        runTypes env now fuel ts st' (results ++ [(t.value, TypeResult.success n hm)])
    | LoopOutcome.err e =>
        runTypes env now fuel ts st' (results ++ [(t.value, TypeResult.error e)])
    | LoopOutcome.fuelOut => .fuelOut st'

/-- Embedding of `RunIntegrationSyncService.run_sync`: resolve the account (a missing
account raises `ValueError`), ensure credentials are fresh (a refresh
failure aborts the whole cycle), then attempt every configured object type.
`account0` is what `account_repo.find_by_external_id` returned. -/
def run_sync (env : CycleEnv) (account0 : Option IntegrationAccount)
    (customerCursor invoiceCursor : Option SyncCursor) (db : DBState)
    (now : Int) (fuel : Nat) : CycleResult :=
  match account0 with
  | none => .raised "Account not found"
  | some account =>
    match ensure_valid_credentials env account now with
    | .error e => .raised e
    | .ok account =>
      runTypes env now fuel QUICKBOOKS_OBJECT_TYPES
        { account := account, customerCursor := customerCursor,
          invoiceCursor := invoiceCursor, db := db } []

/-- A sequence of `advance_cursor` calls, each propagating a raise:
argument tuples are `(new_timestamp, records_count, cursor_data, now)`. -/
def advanceSeq (c : SyncCursor) :
    List (PyDatetime × Nat × Option PyDict × Int) → Except String SyncCursor
  | [] => Except.ok c
  | a :: rest =>
    match c.advance_cursor a.1 a.2.1 a.2.2.1 a.2.2.2 with
    | Except.error e => Except.error e
    | Except.ok c' => advanceSeq c' rest

/-! Helper lemmas about the embedding. -/

theorem PyDatetime.normUTC_tz (d : PyDatetime) : d.normUTC.tz = none := by
  cases d with
  | mk wall tz => cases tz <;> simp [PyDatetime.normUTC]

theorem PyDatetime.normUTC_idem (d : PyDatetime) : d.normUTC.normUTC = d.normUTC := by
  cases d with
  | mk wall tz => cases tz <;> simp [PyDatetime.normUTC]

/-- Full characterisation of a successful `advance_cursor` call. -/
theorem advance_cursor_ok_spec {c c' : SyncCursor} {t : PyDatetime} {n : Nat}
    {d : Option PyDict} {now : Int}
    (h : c.advance_cursor t n d now = Except.ok c') :
    c' = { c with
      last_synced_at := some t.normUTC
      last_attempt_at := PyDatetime.naive now
      status := SyncStatus.success
      cursor_data := d
      error_message := none
      records_synced := c.records_synced + n
      updated_at := PyDatetime.naive now } ∧
    (∀ l, c.last_synced_at = some l → l.normUTC.wall ≤ t.normUTC.wall) := by
  unfold SyncCursor.advance_cursor at h
  cases hls : c.last_synced_at with
  | none =>
    rw [hls] at h
    simp only [Except.ok.injEq] at h
    exact ⟨h.symm, fun l hl => by simp at hl⟩
  | some ls =>
    rw [hls] at h
    by_cases hlt : t.normUTC.wall < ls.normUTC.wall
    · simp only [hlt, if_true] at h
      cases h
    · simp only [hlt, if_false] at h
      simp only [Except.ok.injEq] at h
      refine ⟨h.symm, fun l hl => ?_⟩
      injection hl with hl
      subst hl
      exact le_of_not_lt hlt

/-- A strictly backward move (after UTC normalisation) always raises. -/
theorem advance_cursor_backward {c : SyncCursor} {t : PyDatetime} {n : Nat}
    {d : Option PyDict} {now : Int} {l : PyDatetime}
    (hl : c.last_synced_at = some l) (hlt : t.normUTC.wall < l.normUTC.wall) :
    c.advance_cursor t n d now = Except.error "Cannot move cursor backward" := by
  unfold SyncCursor.advance_cursor
  rw [hl]
  simp only [hlt, if_true]

/-- C2.  For every cursor whose `last_synced_at` is set, a sequence of valid
`advance_cursor` calls never decreases `last_synced_at`; and a call with a
new timestamp strictly earlier (after UTC normalisation) than the current
value always raises `ValueError` — under the embedding a raise returns
`Except.error` before any field assignment, so the cursor value is
unchanged, never clamped. -/
theorem C2_advance_monotonic :
    (∀ (c : SyncCursor) (args : List (PyDatetime × Nat × Option PyDict × Int))
        (c' : SyncCursor) (l : PyDatetime),
        advanceSeq c args = Except.ok c' → c.last_synced_at = some l →
        ∃ l', c'.last_synced_at = some l' ∧ l.normUTC.wall ≤ l'.normUTC.wall) ∧
    (∀ (c : SyncCursor) (t : PyDatetime) (n : Nat) (d : Option PyDict)
        (now : Int) (l : PyDatetime),
        c.last_synced_at = some l → t.normUTC.wall < l.normUTC.wall →
        c.advance_cursor t n d now = Except.error "Cannot move cursor backward") := by
  constructor
  · intro c args
    induction args generalizing c with
    | nil =>
      intro c' l h hl
      cases h
      exact ⟨l, hl, le_refl _⟩
    | cons a rest ih =>
      intro c' l h hl
      unfold advanceSeq at h
      cases hadv : c.advance_cursor a.1 a.2.1 a.2.2.1 a.2.2.2 with
      | error e => rw [hadv] at h; cases h
      | ok c₁ =>
        rw [hadv] at h
        obtain ⟨hc₁, hmono⟩ := advance_cursor_ok_spec hadv
        have hl₁ : c₁.last_synced_at = some a.1.normUTC := by rw [hc₁]
        obtain ⟨l', hl', hle⟩ := ih c₁ c' a.1.normUTC h hl₁
        refine ⟨l', hl', le_trans ?_ hle⟩
        rw [PyDatetime.normUTC_idem]
        exact hmono l hl
  · intro c t n d now l hl hlt
    exact advance_cursor_backward hl hlt

/-- Witness for C2 at concrete inputs. -/
theorem C2_advance_monotonic_witness :
    (∃ l', (SyncCursor.mk IntegrationType.quickbooks "acct" ObjectType.customer
        (some ⟨7, none⟩) (PyDatetime.naive 0) SyncStatus.success none none 1
        (PyDatetime.naive 0) (PyDatetime.naive 0)).last_synced_at = some l' ∧
        (PyDatetime.mk 5 none).normUTC.wall ≤ l'.normUTC.wall) ∧
    (SyncCursor.mk IntegrationType.quickbooks "acct" ObjectType.customer
        (some ⟨5, none⟩) (PyDatetime.naive 0) SyncStatus.success none none 0
        (PyDatetime.naive 0) (PyDatetime.naive 0)).advance_cursor ⟨3, none⟩ 1 none 0 =
      Except.error "Cannot move cursor backward" := by
  constructor
  · exact C2_advance_monotonic.1
      (SyncCursor.mk IntegrationType.quickbooks "acct" ObjectType.customer
        (some ⟨5, none⟩) (PyDatetime.naive 0) SyncStatus.success none none 0
        (PyDatetime.naive 0) (PyDatetime.naive 0))
      [(⟨7, none⟩, 1, none, 0)] _ ⟨5, none⟩ rfl rfl
  · exact C2_advance_monotonic.2 _ ⟨3, none⟩ 1 none 0 ⟨5, none⟩ rfl (by decide)

/-- C5.  `needs_refresh` is true exactly when `now` has reached
`expires_at` minus the buffer, `is_expired` exactly when `now` has reached
`expires_at`; expiry implies `is_expired` regardless of the buffer, and an
expired token always needs refresh for any non-negative buffer.  Both are
pure functions of the credentials and the injected clock. -/
theorem C5_credential_policy :
    ∀ (c : Credentials) (b now : Int),
    (c.needs_refresh b now = true ↔ now ≥ c.expires_at - 60 * b) ∧
    (c.is_expired now = true ↔ now ≥ c.expires_at) ∧
    (now ≥ c.expires_at → c.is_expired now = true) ∧
    (0 ≤ b → c.is_expired now = true → c.needs_refresh b now = true) ∧
    (∀ a : IntegrationAccount,
      CredentialPolicy.should_refresh_credentials a b now =
        a.credentials.needs_refresh b now) ∧
    (CredentialPolicy.is_token_expired c now = c.is_expired now) := by
  intro c b now
  refine ⟨?_, ?_, ?_, ?_, fun a => rfl, rfl⟩
  · simp [Credentials.needs_refresh]
  · simp [Credentials.is_expired]
  · intro h; simp [Credentials.is_expired, h]
  · intro hb h
    simp only [Credentials.is_expired, ge_iff_le, decide_eq_true_eq] at h
    simp only [Credentials.needs_refresh, ge_iff_le, decide_eq_true_eq]
    have : (0:Int) ≤ 60 * b := by positivity
    omega

/-- Witness for C5 at concrete inputs: an expired token is reported
expired and needs refresh. -/
theorem C5_credential_policy_witness :
    (Credentials.mk "tok" "ref" 1000 "Bearer").is_expired 1200 = true ∧
    (Credentials.mk "tok" "ref" 1000 "Bearer").needs_refresh 5 1200 = true := by
  have h := C5_credential_policy (Credentials.mk "tok" "ref" 1000 "Bearer") 5 1200
  exact ⟨h.2.2.1 (by decide), h.2.2.2.1 (by decide) (h.2.2.1 (by decide))⟩

/-- Counterexample to C9 as stated: `update_credentials` performs no
validation, so mutating a validly constructed account with an
empty-token bundle succeeds and leaves the account with empty tokens. -/
theorem C9_counterexample :
    (IntegrationAccount.make IntegrationType.quickbooks "acct"
        (Credentials.mk "tok" "ref" 100 "Bearer") AccountStatus.active
        (PyDatetime.naive 0) (PyDatetime.naive 0) =
      Except.ok (IntegrationAccount.mk IntegrationType.quickbooks "acct"
        (Credentials.mk "tok" "ref" 100 "Bearer") AccountStatus.active
        (PyDatetime.naive 0) (PyDatetime.naive 0))) ∧
    ((IntegrationAccount.mk IntegrationType.quickbooks "acct"
        (Credentials.mk "tok" "ref" 100 "Bearer") AccountStatus.active
        (PyDatetime.naive 0) (PyDatetime.naive 0)).update_credentials
        (Credentials.mk "" "" 0 "Bearer") 50).credentials.access_token = "" := by
  constructor
  · rfl
  · rfl

/-- C9 amended.  Construction rejects empty access or refresh tokens;
`update_credentials` replaces the whole bundle (access+refresh+expiry)
at once and therefore preserves non-emptiness exactly when the supplied
bundle's tokens are non-empty (it performs no validation of its own);
the other mutations never touch the credentials. -/
theorem C9_token_invariant :
    (∀ (it : IntegrationType) (eid : String) (cr : Credentials)
        (st : AccountStatus) (ca ua : PyDatetime) (a : IntegrationAccount),
        IntegrationAccount.make it eid cr st ca ua = Except.ok a →
        a.credentials.access_token ≠ "" ∧ a.credentials.refresh_token ≠ "") ∧
    (∀ (a : IntegrationAccount) (cr : Credentials) (now : Int),
        (a.update_credentials cr now).credentials = cr) ∧
    (∀ (a : IntegrationAccount) (cr : Credentials) (now : Int),
        cr.access_token ≠ "" → cr.refresh_token ≠ "" →
        (a.update_credentials cr now).credentials.access_token ≠ "" ∧
        (a.update_credentials cr now).credentials.refresh_token ≠ "") ∧
    (∀ (a : IntegrationAccount) (now : Int),
        (a.mark_error now).credentials = a.credentials ∧
        (a.mark_disconnected now).credentials = a.credentials) := by
  refine ⟨?_, fun a cr now => rfl, fun a cr now h1 h2 => ⟨h1, h2⟩, fun a now => ⟨rfl, rfl⟩⟩
  intro it eid cr st ca ua a h
  unfold IntegrationAccount.make at h
  split_ifs at h with h1 h2 h3
  cases h
  exact ⟨h2, h3⟩

/-- Witness for C9 amended at concrete inputs. -/
theorem C9_token_invariant_witness :
    (IntegrationAccount.mk IntegrationType.quickbooks "acct"
        (Credentials.mk "tok" "ref" 100 "Bearer") AccountStatus.active
        (PyDatetime.naive 0) (PyDatetime.naive 0)).credentials.access_token ≠ "" ∧
    (IntegrationAccount.mk IntegrationType.quickbooks "acct"
        (Credentials.mk "tok" "ref" 100 "Bearer") AccountStatus.active
        (PyDatetime.naive 0) (PyDatetime.naive 0)).credentials.refresh_token ≠ "" := by
  exact C9_token_invariant.1 IntegrationType.quickbooks "acct"
    (Credentials.mk "tok" "ref" 100 "Bearer") AccountStatus.active
    (PyDatetime.naive 0) (PyDatetime.naive 0) _ rfl

/-! Lemmas about the upsert pattern of the object repository. -/

theorem filter_map_if_customer (r : QuickBooksCustomerRow) :
    ∀ t : List QuickBooksCustomerRow,
      ((t.map fun x => if x.external_account_id = r.external_account_id ∧
          x.qbo_id = r.qbo_id then r else x).filter
        fun x => x.external_account_id = r.external_account_id ∧ x.qbo_id = r.qbo_id) =
      (t.filter fun x => x.external_account_id = r.external_account_id ∧
        x.qbo_id = r.qbo_id).map fun _ => r := by
  intro t
  induction t with
  | nil => rfl
  | cons x xs ih =>
    by_cases hx : x.external_account_id = r.external_account_id ∧ x.qbo_id = r.qbo_id
    · simpa [hx] using ih
    · simpa [hx] using ih

theorem filter_map_if_invoice (r : QuickBooksInvoiceRow) :
    ∀ t : List QuickBooksInvoiceRow,
      ((t.map fun x => if x.external_account_id = r.external_account_id ∧
          x.qbo_id = r.qbo_id then r else x).filter
        fun x => x.external_account_id = r.external_account_id ∧ x.qbo_id = r.qbo_id) =
      (t.filter fun x => x.external_account_id = r.external_account_id ∧
        x.qbo_id = r.qbo_id).map fun _ => r := by
  intro t
  induction t with
  | nil => rfl
  | cons x xs ih =>
    by_cases hx : x.external_account_id = r.external_account_id ∧ x.qbo_id = r.qbo_id
    · simpa [hx] using ih
    · simpa [hx] using ih

theorem upsertCustomerRow_spec (t : List QuickBooksCustomerRow)
    (r : QuickBooksCustomerRow)
    (hcount : (t.filter fun x => x.external_account_id = r.external_account_id ∧
        x.qbo_id = r.qbo_id).length ≤ 1) :
    ((upsertCustomerRow t r).filter fun x =>
        x.external_account_id = r.external_account_id ∧ x.qbo_id = r.qbo_id) = [r] ∧
    (upsertCustomerRow t r).length =
      (if t.any fun x => x.external_account_id = r.external_account_id ∧
          x.qbo_id = r.qbo_id then t.length else t.length + 1) := by
  have hr : (decide (r.external_account_id = r.external_account_id ∧
      r.qbo_id = r.qbo_id)) = true := by simp
  unfold upsertCustomerRow
  by_cases hany : (t.any fun x => x.external_account_id = r.external_account_id ∧
      x.qbo_id = r.qbo_id) = true
  · rw [if_pos hany, if_pos hany]
    refine ⟨?_, by simp⟩
    rw [filter_map_if_customer r t]
    have hpos : 0 < (t.filter fun x => x.external_account_id = r.external_account_id ∧
        x.qbo_id = r.qbo_id).length := by
      rw [List.any_eq_true] at hany
      obtain ⟨x, hx, hpx⟩ := hany
      have : x ∈ t.filter fun x => x.external_account_id = r.external_account_id ∧
          x.qbo_id = r.qbo_id := List.mem_filter.mpr ⟨hx, hpx⟩
      exact List.length_pos.mpr (fun hnil => by rw [hnil] at this; cases this)
    match hf : (t.filter fun x => x.external_account_id = r.external_account_id ∧
        x.qbo_id = r.qbo_id) with
    | [] => rw [hf] at hpos; cases hpos
    | [a] => rw [hf]; rfl
    | a :: b :: rest => rw [hf] at hcount; simp at hcount
  · rw [if_neg hany, if_neg hany]
    have hnil : (t.filter fun x => x.external_account_id = r.external_account_id ∧
        x.qbo_id = r.qbo_id) = [] := by
      rw [List.filter_eq_nil_iff]
      intro x hx
      rw [List.any_eq_true] at hany
      exact fun hpx => hany ⟨x, hx, hpx⟩
    refine ⟨?_, by simp⟩
    rw [List.filter_append, hnil]
    simp [hr]

theorem upsertInvoiceRow_spec (t : List QuickBooksInvoiceRow)
    (r : QuickBooksInvoiceRow)
    (hcount : (t.filter fun x => x.external_account_id = r.external_account_id ∧
        x.qbo_id = r.qbo_id).length ≤ 1) :
    ((upsertInvoiceRow t r).filter fun x =>
        x.external_account_id = r.external_account_id ∧ x.qbo_id = r.qbo_id) = [r] ∧
    (upsertInvoiceRow t r).length =
      (if t.any fun x => x.external_account_id = r.external_account_id ∧
          x.qbo_id = r.qbo_id then t.length else t.length + 1) := by
  have hr : (decide (r.external_account_id = r.external_account_id ∧
      r.qbo_id = r.qbo_id)) = true := by simp
  unfold upsertInvoiceRow
  by_cases hany : (t.any fun x => x.external_account_id = r.external_account_id ∧
      x.qbo_id = r.qbo_id) = true
  · rw [if_pos hany, if_pos hany]
    refine ⟨?_, by simp⟩
    rw [filter_map_if_invoice r t]
    have hpos : 0 < (t.filter fun x => x.external_account_id = r.external_account_id ∧
        x.qbo_id = r.qbo_id).length := by
      rw [List.any_eq_true] at hany
      obtain ⟨x, hx, hpx⟩ := hany
      have : x ∈ t.filter fun x => x.external_account_id = r.external_account_id ∧
          x.qbo_id = r.qbo_id := List.mem_filter.mpr ⟨hx, hpx⟩
      exact List.length_pos.mpr (fun hnil => by rw [hnil] at this; cases this)
    match hf : (t.filter fun x => x.external_account_id = r.external_account_id ∧
        x.qbo_id = r.qbo_id) with
    | [] => rw [hf] at hpos; cases hpos
    | [a] => rw [hf]; rfl
    | a :: b :: rest => rw [hf] at hcount; simp at hcount
  · rw [if_neg hany, if_neg hany]
    have hnil : (t.filter fun x => x.external_account_id = r.external_account_id ∧
        x.qbo_id = r.qbo_id) = [] := by
      rw [List.filter_eq_nil_iff]
      intro x hx
      rw [List.any_eq_true] at hany
      exact fun hpx => hany ⟨x, hx, hpx⟩
    refine ⟨?_, by simp⟩
    rw [List.filter_append, hnil]
    simp [hr]

/-- A singleton customer batch reduces to one upsert into the customer
table. -/
theorem save_batch_customer (db : DBState) (r : RawExternalObject)
    (h : r.object_type = ObjectType.customer) :
    save_batch db [r] =
      { db with
        customers :=
          upsertCustomerRow db.customers
            (QuickBooksCustomerRow.mk r.external_account_id r.external_object_id
              r.payload r.last_updated_time) } := by
  simp [save_batch, save_customers, h, List.filter]

/-- A singleton invoice batch reduces to one upsert into the invoice
table. -/
theorem save_batch_invoice (db : DBState) (r : RawExternalObject)
    (h : r.object_type = ObjectType.invoice) :
    save_batch db [r] =
      { db with
        invoices :=
          upsertInvoiceRow db.invoices
            (QuickBooksInvoiceRow.mk r.external_account_id r.external_object_id
              (if r.payload.truthy then r.payload.customerRef else none)
              r.payload r.last_updated_time) } := by
  simp [save_batch, save_invoices, h, List.filter]

theorem upsert_twice_customer (t : List QuickBooksCustomerRow)
    (row1 row2 : QuickBooksCustomerRow)
    (hea : row1.external_account_id = row2.external_account_id)
    (hoid : row1.qbo_id = row2.qbo_id)
    (hcount : (t.filter fun x => x.external_account_id = row2.external_account_id ∧
        x.qbo_id = row2.qbo_id).length ≤ 1) :
    ((upsertCustomerRow (upsertCustomerRow t row1) row2).filter fun x =>
        x.external_account_id = row2.external_account_id ∧
        x.qbo_id = row2.qbo_id) = [row2] ∧
    (upsertCustomerRow (upsertCustomerRow t row1) row2).length =
      (upsertCustomerRow t row1).length := by
  obtain ⟨hf1, _⟩ := upsertCustomerRow_spec t row1 (by rw [hea, hoid]; exact hcount)
  rw [hea, hoid] at hf1
  have hcount1 : ((upsertCustomerRow t row1).filter fun x =>
      x.external_account_id = row2.external_account_id ∧
      x.qbo_id = row2.qbo_id).length ≤ 1 := by
    rw [hf1]
    simp
  obtain ⟨hf2, hl2⟩ := upsertCustomerRow_spec (upsertCustomerRow t row1) row2 hcount1
  refine ⟨hf2, ?_⟩
  rw [hl2]
  have hmem : row1 ∈ (upsertCustomerRow t row1).filter fun x =>
      x.external_account_id = row2.external_account_id ∧ x.qbo_id = row2.qbo_id := by
    rw [hf1]
    exact List.mem_singleton.mpr rfl
  have hany : ((upsertCustomerRow t row1).any fun x =>
      x.external_account_id = row2.external_account_id ∧
      x.qbo_id = row2.qbo_id) = true := by
    rw [List.any_eq_true]
    exact ⟨row1, (List.mem_filter.mp hmem).1, (List.mem_filter.mp hmem).2⟩
  rw [if_pos hany]

theorem upsert_twice_invoice (t : List QuickBooksInvoiceRow)
    (row1 row2 : QuickBooksInvoiceRow)
    (hea : row1.external_account_id = row2.external_account_id)
    (hoid : row1.qbo_id = row2.qbo_id)
    (hcount : (t.filter fun x => x.external_account_id = row2.external_account_id ∧
        x.qbo_id = row2.qbo_id).length ≤ 1) :
    ((upsertInvoiceRow (upsertInvoiceRow t row1) row2).filter fun x =>
        x.external_account_id = row2.external_account_id ∧
        x.qbo_id = row2.qbo_id) = [row2] ∧
    (upsertInvoiceRow (upsertInvoiceRow t row1) row2).length =
      (upsertInvoiceRow t row1).length := by
  obtain ⟨hf1, _⟩ := upsertInvoiceRow_spec t row1 (by rw [hea, hoid]; exact hcount)
  rw [hea, hoid] at hf1
  have hcount1 : ((upsertInvoiceRow t row1).filter fun x =>
      x.external_account_id = row2.external_account_id ∧
      x.qbo_id = row2.qbo_id).length ≤ 1 := by
    rw [hf1]
    simp
  obtain ⟨hf2, hl2⟩ := upsertInvoiceRow_spec (upsertInvoiceRow t row1) row2 hcount1
  refine ⟨hf2, ?_⟩
  rw [hl2]
  have hmem : row1 ∈ (upsertInvoiceRow t row1).filter fun x =>
      x.external_account_id = row2.external_account_id ∧ x.qbo_id = row2.qbo_id := by
    rw [hf1]
    exact List.mem_singleton.mpr rfl
  have hany : ((upsertInvoiceRow t row1).any fun x =>
      x.external_account_id = row2.external_account_id ∧
      x.qbo_id = row2.qbo_id) = true := by
    rw [List.any_eq_true]
    exact ⟨row1, (List.mem_filter.mp hmem).1, (List.mem_filter.mp hmem).2⟩
  rw [if_pos hany]

/-- C7.  Persisting two records with the same composite identity
(integration type is fixed to quickbooks, object type selects the table,
account id and external object id form the conflict key) leaves exactly one
stored row for that identity, carrying the second record's payload and
vendor timestamp wholesale; the second upsert adds no row, and the other
table is untouched.  The hypothesis is the uniqueness the database enforces
on the conflict key. -/
theorem C7_idempotent_upsert :
    (∀ (db : DBState) (r1 r2 : RawExternalObject),
      r1.object_type = ObjectType.customer → r2.object_type = ObjectType.customer →
      r1.external_account_id = r2.external_account_id →
      r1.external_object_id = r2.external_object_id →
      (db.customers.filter fun x => x.external_account_id = r2.external_account_id ∧
          x.qbo_id = r2.external_object_id).length ≤ 1 →
      ((save_batch (save_batch db [r1]) [r2]).customers.filter fun x =>
          x.external_account_id = r2.external_account_id ∧
          x.qbo_id = r2.external_object_id) =
        [QuickBooksCustomerRow.mk r2.external_account_id r2.external_object_id
          r2.payload r2.last_updated_time] ∧
      (save_batch (save_batch db [r1]) [r2]).customers.length =
        (save_batch db [r1]).customers.length ∧
      (save_batch (save_batch db [r1]) [r2]).invoices = db.invoices) ∧
    (∀ (db : DBState) (r1 r2 : RawExternalObject),
      r1.object_type = ObjectType.invoice → r2.object_type = ObjectType.invoice →
      r1.external_account_id = r2.external_account_id →
      r1.external_object_id = r2.external_object_id →
      (db.invoices.filter fun x => x.external_account_id = r2.external_account_id ∧
          x.qbo_id = r2.external_object_id).length ≤ 1 →
      ((save_batch (save_batch db [r1]) [r2]).invoices.filter fun x =>
          x.external_account_id = r2.external_account_id ∧
          x.qbo_id = r2.external_object_id) =
        [QuickBooksInvoiceRow.mk r2.external_account_id r2.external_object_id
          (if r2.payload.truthy then r2.payload.customerRef else none)
          r2.payload r2.last_updated_time] ∧
      (save_batch (save_batch db [r1]) [r2]).invoices.length =
        (save_batch db [r1]).invoices.length ∧
      (save_batch (save_batch db [r1]) [r2]).customers = db.customers) := by
  constructor
  · intro db r1 r2 h1 h2 hea hoid hcount
    rw [save_batch_customer db r1 h1,
        save_batch_customer _ r2 h2]
    have := upsert_twice_customer db.customers
      (QuickBooksCustomerRow.mk r1.external_account_id r1.external_object_id
        r1.payload r1.last_updated_time)
      (QuickBooksCustomerRow.mk r2.external_account_id r2.external_object_id
        r2.payload r2.last_updated_time)
      hea hoid hcount
    exact ⟨this.1, this.2, rfl⟩
  · intro db r1 r2 h1 h2 hea hoid hcount
    rw [save_batch_invoice db r1 h1,
        save_batch_invoice _ r2 h2]
    have := upsert_twice_invoice db.invoices
      (QuickBooksInvoiceRow.mk r1.external_account_id r1.external_object_id
        (if r1.payload.truthy then r1.payload.customerRef else none)
        r1.payload r1.last_updated_time)
      (QuickBooksInvoiceRow.mk r2.external_account_id r2.external_object_id
        (if r2.payload.truthy then r2.payload.customerRef else none)
        r2.payload r2.last_updated_time)
      hea hoid hcount
    exact ⟨this.1, this.2, rfl⟩

/-- Witness for C7 at concrete inputs: the same customer identity persisted
twice with different payloads. -/
theorem C7_idempotent_upsert_witness :
    ((save_batch (save_batch (DBState.mk [] [])
        [RawExternalObject.mk IntegrationType.quickbooks "acct"
          ObjectType.customer "C1" (Payload.mk true none "v1")
          (PyDatetime.naive 10) (PyDatetime.naive 0) (PyDatetime.naive 0)])
        [RawExternalObject.mk IntegrationType.quickbooks "acct"
          ObjectType.customer "C1" (Payload.mk true none "v2")
          (PyDatetime.naive 20) (PyDatetime.naive 1) (PyDatetime.naive 1)]).customers.filter
      fun x => x.external_account_id = "acct" ∧ x.qbo_id = "C1") =
      [QuickBooksCustomerRow.mk "acct" "C1" (Payload.mk true none "v2")
        (PyDatetime.naive 20)] := by
  exact (C7_idempotent_upsert.1 (DBState.mk [] [])
    (RawExternalObject.mk IntegrationType.quickbooks "acct"
      ObjectType.customer "C1" (Payload.mk true none "v1")
      (PyDatetime.naive 10) (PyDatetime.naive 0) (PyDatetime.naive 0))
    (RawExternalObject.mk IntegrationType.quickbooks "acct"
      ObjectType.customer "C1" (Payload.mk true none "v2")
      (PyDatetime.naive 20) (PyDatetime.naive 1) (PyDatetime.naive 1))
    rfl rfl rfl rfl (by decide)).1

/-! Step-level characterisation of the page loop. -/

theorem syncPage_stop_spec {it : IntegrationType} {acc : String} {ot : ObjectType}
    {fetch : Fetch} {now : Int} {st st' : LoopState}
    (h : syncPage it acc ot fetch now st = StepResult.stop st') :
    st'.cursor = st.cursor ∧ st'.total_synced = st.total_synced ∧
    st'.start_position = st.start_position ∧ st'.db = st.db ∧
    st'.savedCursors = st.savedCursors ∧
    st'.fetchCalls = st.fetchCalls ++
      [(st.cursor.get_cursor_value, st.start_position)] ∧
    fetch st.cursor.get_cursor_value st.start_position = Except.ok [] := by
  simp only [syncPage] at h
  split at h
  · simp [handleLoopError] at h
  · rename_i heq
    cases h
    exact ⟨rfl, rfl, rfl, rfl, rfl, rfl, heq⟩
  · split at h
    · simp [handleLoopError] at h
    · split at h
      · simp [handleLoopError] at h
      · split at h
        · simp [handleLoopError] at h
        · simp at h

theorem syncPage_next_spec {it : IntegrationType} {acc : String} {ot : ObjectType}
    {fetch : Fetch} {now : Int} {st st' : LoopState}
    (h : syncPage it acc ot fetch now st = StepResult.next st') :
    st'.cursor.status = SyncStatus.success ∧
    st'.cursor.error_message = none ∧
    st.total_synced < st'.total_synced ∧
    st'.savedCursors = st.savedCursors ++ [st'.cursor] ∧
    st'.fetchCalls = st.fetchCalls ++
      [(st.cursor.get_cursor_value, st.start_position)] ∧
    ∃ page latest,
      fetch st.cursor.get_cursor_value st.start_position = Except.ok page ∧
      page ≠ [] ∧
      pyListMax (page.map (·.last_updated_time)) = Except.ok latest ∧
      st'.cursor.last_synced_at = some latest.normUTC ∧
      st'.cursor.cursor_data =
        some [("start_position", st.start_position + (page.length : Int))] ∧
      st'.cursor.records_synced = st.cursor.records_synced + page.length ∧
      st'.total_synced = st.total_synced + page.length ∧
      st'.start_position = st.start_position + (page.length : Int) := by
  simp only [syncPage] at h
  split at h
  · simp [handleLoopError] at h
  · simp at h
  · split at h
    · simp [handleLoopError] at h
    · split at h
      · simp [handleLoopError] at h
      · split at h
        · simp [handleLoopError] at h
        · rename_i x1 o os heqf x2 raws heqc x3 latest heqm x4 c heqa
          cases h
          obtain ⟨hc, _⟩ := advance_cursor_ok_spec heqa
          subst hc
          exact ⟨rfl, rfl, by simp, rfl, rfl, o :: os, latest, heqf, by simp,
            heqm, rfl, rfl, rfl, rfl, rfl⟩

theorem syncPage_raised_spec {it : IntegrationType} {acc : String} {ot : ObjectType}
    {fetch : Fetch} {now : Int} {e : String} {st st' : LoopState}
    (h : syncPage it acc ot fetch now st = StepResult.raised e st') :
    st'.cursor.status = SyncStatus.failure ∧
    st'.cursor.error_message = some e ∧
    st'.cursor.cursor_data = some [("start_position", st'.start_position)] ∧
    st'.cursor.last_synced_at = st.cursor.last_synced_at ∧
    st'.cursor.records_synced = st.cursor.records_synced ∧
    st'.savedCursors = st.savedCursors ++ [st'.cursor] ∧
    st'.fetchCalls = st.fetchCalls ++
      [(st.cursor.get_cursor_value, st.start_position)] ∧
    (fetch st.cursor.get_cursor_value st.start_position = Except.error e →
      st'.db = st.db ∧ st'.total_synced = st.total_synced ∧
      st'.start_position = st.start_position) := by
  simp only [syncPage] at h
  split at h
  · simp only [handleLoopError] at h
    cases h
    refine ⟨rfl, rfl, by simp [SyncCursor.mark_failure, pyDictTruthy], rfl, rfl,
      rfl, rfl, fun _ => ⟨rfl, rfl, rfl⟩⟩
  · simp at h
  · split at h
    · simp only [handleLoopError] at h
      cases h
      refine ⟨rfl, rfl, by simp [SyncCursor.mark_failure, pyDictTruthy], rfl, rfl,
        rfl, rfl, fun hfe => by simp_all⟩
    · split at h
      · simp only [handleLoopError] at h
        cases h
        refine ⟨rfl, rfl, by simp [SyncCursor.mark_failure, pyDictTruthy], rfl, rfl,
          rfl, rfl, fun hfe => by simp_all⟩
      · split at h
        · simp only [handleLoopError] at h
          cases h
          refine ⟨rfl, rfl, by simp [SyncCursor.mark_failure, pyDictTruthy], rfl, rfl,
            rfl, rfl, fun hfe => by simp_all⟩
        · simp at h

/-- Every iteration records exactly one fetch invocation, whichever way it
ends. -/
theorem syncPage_fetchCalls (it : IntegrationType) (acc : String)
    (ot : ObjectType) (fetch : Fetch) (now : Int) (st : LoopState) :
    (syncPage it acc ot fetch now st).state.fetchCalls =
      st.fetchCalls ++ [(st.cursor.get_cursor_value, st.start_position)] := by
  cases h : syncPage it acc ot fetch now st with
  | stop s => exact (syncPage_stop_spec h).2.2.2.2.2.1
  | next s => exact (syncPage_next_spec h).2.2.2.2.1
  | raised e s => exact (syncPage_raised_spec h).2.2.2.2.2.2.1

/-- Completion spec of the loop: a run that returns the success dict has
`has_more = False` and count equal to the final `total_synced`, ends with
`cursor_data` cleared and the final cursor persisted last; a run that
processed no page leaves `last_synced_at`, `status` and `error_message`
untouched, and a run that processed at least one page ends with status
`success` and no error message. -/
theorem syncLoop_ok_spec {it : IntegrationType} {acc : String} {ot : ObjectType}
    {fetch : Fetch} {now : Int} :
    ∀ (fuel : Nat) (st stf : LoopState) (n : Nat) (hm : Bool),
    syncLoop it acc ot fetch now fuel st = (LoopOutcome.ok n hm, stf) →
    hm = false ∧ n = stf.total_synced ∧ stf.cursor.cursor_data = none ∧
    st.total_synced ≤ stf.total_synced ∧
    (stf.total_synced = st.total_synced →
      stf.cursor.last_synced_at = st.cursor.last_synced_at ∧
      stf.cursor.status = st.cursor.status ∧
      stf.cursor.error_message = st.cursor.error_message) ∧
    (st.total_synced < stf.total_synced →
      stf.cursor.status = SyncStatus.success ∧
      stf.cursor.error_message = none) ∧
    stf.savedCursors.getLast? = some stf.cursor := by
  intro fuel
  induction fuel with
  | zero =>
    intro st stf n hm h
    simp [syncLoop] at h
  | succ f ih =>
    intro st stf n hm h
    simp only [syncLoop] at h
    split at h
    · rename_i s1 heq
      obtain ⟨hc, ht, hs, hd, hsv, hfc, hff⟩ := syncPage_stop_spec heq
      injection h with h1 h2
      injection h1 with h1a h1b
      subst h2
      subst h1a
      subst h1b
      refine ⟨rfl, rfl, rfl, ?_, ?_, ?_, ?_⟩
      · simp [ht]
      · intro _
        simp [hc]
      · intro hlt
        simp [ht] at hlt
      · simp [List.getLast?_concat]
    · rename_i e s1 heq
      simp at h
    · rename_i s1 heq
      obtain ⟨hst, herr, htot, hsv, hfc, page, latest, hpage⟩ := syncPage_next_spec heq
      obtain ⟨h1, h2, h3, h4, h5, h6, h7⟩ := ih s1 stf n hm h
      refine ⟨h1, h2, h3, le_of_lt (lt_of_lt_of_le htot h4), ?_, ?_, h7⟩
      · intro heq'
        have : st.total_synced < stf.total_synced := lt_of_lt_of_le htot h4
        omega
      · intro _
        rcases eq_or_lt_of_le h4 with hcase | hcase
        · have h5' := h5 hcase.symm
          exact ⟨h5'.2.1.trans hst, h5'.2.2.trans herr⟩
        · exact h6 hcase

/-- Failure spec of the loop: a run that re-raises `e` has, at the moment
the exception propagates, a cursor persisted last in the trace with status
`failure`, the error message recorded, and the resume token at the current
offset of the failure point. -/
theorem syncLoop_err_spec {it : IntegrationType} {acc : String} {ot : ObjectType}
    {fetch : Fetch} {now : Int} :
    ∀ (fuel : Nat) (st stf : LoopState) (e : String),
    syncLoop it acc ot fetch now fuel st = (LoopOutcome.err e, stf) →
    stf.cursor.status = SyncStatus.failure ∧
    stf.cursor.error_message = some e ∧
    stf.cursor.cursor_data = some [("start_position", stf.start_position)] ∧
    stf.savedCursors.getLast? = some stf.cursor := by
  intro fuel
  induction fuel with
  | zero =>
    intro st stf e h
    simp [syncLoop] at h
  | succ f ih =>
    intro st stf e h
    simp only [syncLoop] at h
    split at h
    · simp at h
    · rename_i e' s1 heq
      injection h with h1 h2
      injection h1 with h1a
      subst h2
      subst h1a
      obtain ⟨hst, herr, hdata, hls, hrec, hsv, hfc, _⟩ := syncPage_raised_spec heq
      exact ⟨hst, herr, hdata, by rw [hsv]; simp [List.getLast?_concat]⟩
    · rename_i s1 heq
      exact ih s1 stf e h

/-- The fetch-call trace only ever grows. -/
theorem syncLoop_fetchCalls_extend {it : IntegrationType} {acc : String}
    {ot : ObjectType} {fetch : Fetch} {now : Int} :
    ∀ (fuel : Nat) (st : LoopState),
    ∃ tail, ((syncLoop it acc ot fetch now fuel st).2).fetchCalls =
      st.fetchCalls ++ tail := by
  intro fuel
  induction fuel with
  | zero =>
    intro st
    exact ⟨[], by simp [syncLoop]⟩
  | succ f ih =>
    intro st
    simp only [syncLoop]
    split
    · rename_i s1 heq
      refine ⟨[(st.cursor.get_cursor_value, st.start_position)], ?_⟩
      have := (syncPage_stop_spec heq).2.2.2.2.2.1
      simpa using this
    · rename_i e s1 heq
      refine ⟨[(st.cursor.get_cursor_value, st.start_position)], ?_⟩
      have := (syncPage_raised_spec heq).2.2.2.2.2.2.1
      simpa using this
    · rename_i s1 heq
      obtain ⟨tail, htail⟩ := ih s1
      have h1 := (syncPage_next_spec heq).2.2.2.2.1
      exact ⟨(st.cursor.get_cursor_value, st.start_position) :: tail,
        by rw [htail, h1]; simp⟩

/-- With at least one unit of fuel, the first recorded fetch call carries
the entry cursor value and the entry start offset. -/
theorem syncLoop_first_fetch {it : IntegrationType} {acc : String}
    {ot : ObjectType} {fetch : Fetch} {now : Int} (f : Nat) (st : LoopState) :
    ∃ tail, ((syncLoop it acc ot fetch now (f + 1) st).2).fetchCalls =
      st.fetchCalls ++ (st.cursor.get_cursor_value, st.start_position) :: tail := by
  simp only [syncLoop]
  split
  · rename_i s1 heq
    refine ⟨[], ?_⟩
    have := (syncPage_stop_spec heq).2.2.2.2.2.1
    simpa using this
  · rename_i e s1 heq
    refine ⟨[], ?_⟩
    have := (syncPage_raised_spec heq).2.2.2.2.2.2.1
    simpa using this
  · rename_i s1 heq
    obtain ⟨tail, htail⟩ := syncLoop_fetchCalls_extend f s1
    have h1 := (syncPage_next_spec heq).2.2.2.2.1
    exact ⟨tail, by rw [htail, h1]; simp⟩

/-- Spec of a successful `sync_quickbooks_objects` run, relative to the
cursor the repository returned (or the fresh cursor). -/
theorem service_ok_spec {it : IntegrationType} {acc : String} {ot : ObjectType}
    {cursor0 : Option SyncCursor} {fetch : Fetch} {now : Int} {db0 : DBState}
    {fuel n : Nat} {hm : Bool} {stf : LoopState}
    (h : sync_quickbooks_objects it acc ot cursor0 fetch now db0 fuel =
      (LoopOutcome.ok n hm, stf)) :
    hm = false ∧ n = stf.total_synced ∧ stf.cursor.cursor_data = none ∧
    stf.savedCursors.getLast? = some stf.cursor ∧
    (0 < n → stf.cursor.status = SyncStatus.success ∧
      stf.cursor.error_message = none) ∧
    (n = 0 → stf.cursor.last_synced_at =
      (match cursor0 with
       | some c => c
       | none => freshCursor it acc ot now).last_synced_at ∧
      stf.cursor.status = SyncStatus.in_progress) := by
  simp only [sync_quickbooks_objects] at h
  obtain ⟨h1, h2, h3, h4, h5, h6, h7⟩ := syncLoop_ok_spec fuel _ stf n hm h
  refine ⟨h1, h2, h3, h7, ?_, ?_⟩
  · intro hn
    exact h6 (h2 ▸ hn)
  · intro hn
    have h5' := h5 ((hn ▸ h2).symm)
    exact ⟨h5'.1, h5'.2.1⟩

/-- Spec of a raising `sync_quickbooks_objects` run. -/
theorem service_err_spec {it : IntegrationType} {acc : String} {ot : ObjectType}
    {cursor0 : Option SyncCursor} {fetch : Fetch} {now : Int} {db0 : DBState}
    {fuel : Nat} {e : String} {stf : LoopState}
    (h : sync_quickbooks_objects it acc ot cursor0 fetch now db0 fuel =
      (LoopOutcome.err e, stf)) :
    stf.cursor.status = SyncStatus.failure ∧
    stf.cursor.error_message = some e ∧
    stf.cursor.cursor_data = some [("start_position", stf.start_position)] ∧
    stf.savedCursors.getLast? = some stf.cursor := by
  simp only [sync_quickbooks_objects] at h
  exact syncLoop_err_spec fuel _ stf e h

/-- Forward computation of one run whose very first fetch raises. -/
theorem syncLoop_fetch_error {it : IntegrationType} {acc : String}
    {ot : ObjectType} {fetch : Fetch} {now : Int} (f : Nat) (st : LoopState)
    {e : String}
    (hfe : fetch st.cursor.get_cursor_value st.start_position = Except.error e) :
    syncLoop it acc ot fetch now (f + 1) st =
      (LoopOutcome.err e,
        { st with
          cursor := st.cursor.mark_failure e
            (some [("start_position", st.start_position)]) now
          savedCursors := st.savedCursors ++
            [st.cursor.mark_failure e
              (some [("start_position", st.start_position)]) now]
          fetchCalls := st.fetchCalls ++
            [(st.cursor.get_cursor_value, st.start_position)] }) := by
  simp only [syncLoop, syncPage, hfe, handleLoopError]

/-- Forward computation of a whole service run when every fetch raises
`e`: the attempt is marked and persisted, the first fetch raises, the
failure is checkpointed, and the object store is untouched. -/
theorem service_fetch_error {it : IntegrationType} {acc : String}
    {ot : ObjectType} {cursor0 : Option SyncCursor} {fetch : Fetch}
    {now : Int} {db0 : DBState} (f : Nat) {e : String}
    (hcf : ∀ u p, fetch u p = Except.error e) :
    (sync_quickbooks_objects it acc ot cursor0 fetch now db0 (f + 1)).1 =
      LoopOutcome.err e ∧
    (sync_quickbooks_objects it acc ot cursor0 fetch now db0 (f + 1)).2.cursor =
      ((match cursor0 with
        | some c => c
        | none => freshCursor it acc ot now).mark_attempt now).mark_failure e
        (some [("start_position",
          initialStartPosition ((match cursor0 with
            | some c => c
            | none => freshCursor it acc ot now).mark_attempt now))]) now ∧
    (sync_quickbooks_objects it acc ot cursor0 fetch now db0 (f + 1)).2.db = db0 := by
  have h := @syncLoop_fetch_error it acc ot fetch now f
    { cursor := (match cursor0 with
        | some c => c
        | none => freshCursor it acc ot now).mark_attempt now
      start_position := initialStartPosition ((match cursor0 with
        | some c => c
        | none => freshCursor it acc ot now).mark_attempt now)
      total_synced := 0
      db := db0
      savedCursors := [(match cursor0 with
        | some c => c
        | none => freshCursor it acc ot now).mark_attempt now]
      fetchCalls := [] }
    e (hcf _ _)
  simp only [sync_quickbooks_objects]
  rw [h]
  exact ⟨rfl, rfl, rfl⟩

/-- Counterexample to C3 as stated: a run whose very first fetched page is
empty (zero pages) terminates successfully and clears the resume token, but
the persisted cursor keeps status `in_progress` (set by `mark_attempt`) and
keeps the stale `error_message` — only `advance_cursor`, which never runs
on a zero-page run, would have set `success` and cleared the error. -/
theorem C3_counterexample :
    (sync_quickbooks_objects IntegrationType.quickbooks "acct"
      ObjectType.customer
      (some (SyncCursor.mk IntegrationType.quickbooks "acct"
        ObjectType.customer (some ⟨5, none⟩) (PyDatetime.naive 0)
        SyncStatus.failure (some [("start_position", 7)]) (some "boom") 3
        (PyDatetime.naive 0) (PyDatetime.naive 0)))
      (fun _ _ => Except.ok []) 100 (DBState.mk [] []) 10).1 =
      LoopOutcome.ok 0 false ∧
    (sync_quickbooks_objects IntegrationType.quickbooks "acct"
      ObjectType.customer
      (some (SyncCursor.mk IntegrationType.quickbooks "acct"
        ObjectType.customer (some ⟨5, none⟩) (PyDatetime.naive 0)
        SyncStatus.failure (some [("start_position", 7)]) (some "boom") 3
        (PyDatetime.naive 0) (PyDatetime.naive 0)))
      (fun _ _ => Except.ok []) 100 (DBState.mk [] []) 10).2.cursor.status =
      SyncStatus.in_progress ∧
    (sync_quickbooks_objects IntegrationType.quickbooks "acct"
      ObjectType.customer
      (some (SyncCursor.mk IntegrationType.quickbooks "acct"
        ObjectType.customer (some ⟨5, none⟩) (PyDatetime.naive 0)
        SyncStatus.failure (some [("start_position", 7)]) (some "boom") 3
        (PyDatetime.naive 0) (PyDatetime.naive 0)))
      (fun _ _ => Except.ok []) 100 (DBState.mk [] []) 10).2.cursor.error_message =
      some "boom" ∧
    (sync_quickbooks_objects IntegrationType.quickbooks "acct"
      ObjectType.customer
      (some (SyncCursor.mk IntegrationType.quickbooks "acct"
        ObjectType.customer (some ⟨5, none⟩) (PyDatetime.naive 0)
        SyncStatus.failure (some [("start_position", 7)]) (some "boom") 3
        (PyDatetime.naive 0) (PyDatetime.naive 0)))
      (fun _ _ => Except.ok []) 100 (DBState.mk [] []) 10).2.cursor.cursor_data =
      none := by
  exact ⟨rfl, rfl, rfl, rfl⟩

/-- C3 amended.  On successful loop termination the persisted cursor always
has its resume token (`cursor_data`) cleared; when at least one page was
processed it also has status `success` and a cleared `error_message` (set
by the last per-page `advance_cursor`); a zero-page run instead leaves
status `in_progress` and does not touch `error_message` or
`last_synced_at`. -/
theorem C3_termination_checkpoint (it : IntegrationType) (acc : String)
    (ot : ObjectType) (cursor0 : Option SyncCursor) (fetch : Fetch)
    (now : Int) (db0 : DBState) (fuel n : Nat) (hm : Bool) (stf : LoopState)
    (h : sync_quickbooks_objects it acc ot cursor0 fetch now db0 fuel =
      (LoopOutcome.ok n hm, stf)) :
    stf.cursor.cursor_data = none ∧
    stf.savedCursors.getLast? = some stf.cursor ∧
    (0 < n → stf.cursor.status = SyncStatus.success ∧
      stf.cursor.error_message = none) ∧
    (n = 0 → stf.cursor.status = SyncStatus.in_progress) := by
  obtain ⟨h1, h2, h3, h4, h5, h6⟩ := service_ok_spec h
  exact ⟨h3, h4, h5, fun hn => (h6 hn).2⟩

/-- Witness for C3 amended: a two-page run ends with the resume token
cleared and status success. -/
theorem C3_termination_checkpoint_witness :
    (sync_quickbooks_objects IntegrationType.quickbooks "acct"
      ObjectType.customer none
      (fun _ pos => if pos = 1 then Except.ok
          [QuickBooksObject.mk "A" ⟨10, none⟩ (Payload.mk true none "p1")]
        else Except.ok [])
      100 (DBState.mk [] []) 10).2.cursor.cursor_data = none ∧
    ((0:Nat) < 1 →
      (sync_quickbooks_objects IntegrationType.quickbooks "acct"
        ObjectType.customer none
        (fun _ pos => if pos = 1 then Except.ok
            [QuickBooksObject.mk "A" ⟨10, none⟩ (Payload.mk true none "p1")]
          else Except.ok [])
        100 (DBState.mk [] []) 10).2.cursor.status = SyncStatus.success ∧
      (sync_quickbooks_objects IntegrationType.quickbooks "acct"
        ObjectType.customer none
        (fun _ pos => if pos = 1 then Except.ok
            [QuickBooksObject.mk "A" ⟨10, none⟩ (Payload.mk true none "p1")]
          else Except.ok [])
        100 (DBState.mk [] []) 10).2.cursor.error_message = none) := by
  have h := C3_termination_checkpoint IntegrationType.quickbooks "acct"
    ObjectType.customer none
    (fun _ pos => if pos = 1 then Except.ok
        [QuickBooksObject.mk "A" ⟨10, none⟩ (Payload.mk true none "p1")]
      else Except.ok [])
    100 (DBState.mk [] []) 10 1 false _ rfl
  exact ⟨h.1, fun _ => h.2.2.1 (by omega)⟩

/-- C4.  Whenever the page loop re-raises an exception `e`, the state it
leaves behind has the cursor persisted (last save in the trace) with status
`failure`, the error message recorded, and the resume token holding the
current page offset of the failure point; the exception itself propagates
as the `err` outcome. -/
theorem C4_failure_checkpoint (it : IntegrationType) (acc : String)
    (ot : ObjectType) (cursor0 : Option SyncCursor) (fetch : Fetch)
    (now : Int) (db0 : DBState) (fuel : Nat) (e : String) (stf : LoopState)
    (h : sync_quickbooks_objects it acc ot cursor0 fetch now db0 fuel =
      (LoopOutcome.err e, stf)) :
    stf.cursor.status = SyncStatus.failure ∧
    stf.cursor.error_message = some e ∧
    stf.cursor.cursor_data = some [("start_position", stf.start_position)] ∧
    stf.savedCursors.getLast? = some stf.cursor := by
  exact service_err_spec h

/-- Witness for C4: a run whose fetch raises. -/
theorem C4_failure_checkpoint_witness :
    (sync_quickbooks_objects IntegrationType.quickbooks "acct"
      ObjectType.customer none (fun _ _ => Except.error "http 500") 100
      (DBState.mk [] []) 10).2.cursor.status = SyncStatus.failure ∧
    (sync_quickbooks_objects IntegrationType.quickbooks "acct"
      ObjectType.customer none (fun _ _ => Except.error "http 500") 100
      (DBState.mk [] []) 10).2.cursor.error_message = some "http 500" := by
  have h := C4_failure_checkpoint IntegrationType.quickbooks "acct"
    ObjectType.customer none (fun _ _ => Except.error "http 500") 100
    (DBState.mk [] []) 10 "http 500" _ rfl
  exact ⟨h.1, h.2.1⟩

/-- Counterexample to C1 as stated: in a run with two non-empty pages
(timestamps 10 then 20), the cursor saves are `mark_attempt`, page one,
page two, completion, and their `last_synced_at` values are
`[none, some 10, some 20, some 20]` — so processing a non-empty page does
change `last_synced_at` (each page's checkpoint sets it to that page's
maximum), it changes twice during the run, and the loop-completion save
does not change it at all. -/
theorem C1_counterexample :
    (sync_quickbooks_objects IntegrationType.quickbooks "acct"
      ObjectType.customer none
      (fun _ pos =>
        if pos = 1 then Except.ok
          [QuickBooksObject.mk "A" ⟨10, none⟩ (Payload.mk true none "p1")]
        else if pos = 2 then Except.ok
          [QuickBooksObject.mk "B" ⟨20, none⟩ (Payload.mk true none "p2")]
        else Except.ok [])
      100 (DBState.mk [] []) 10).1 = LoopOutcome.ok 2 false ∧
    ((sync_quickbooks_objects IntegrationType.quickbooks "acct"
      ObjectType.customer none
      (fun _ pos =>
        if pos = 1 then Except.ok
          [QuickBooksObject.mk "A" ⟨10, none⟩ (Payload.mk true none "p1")]
        else if pos = 2 then Except.ok
          [QuickBooksObject.mk "B" ⟨20, none⟩ (Payload.mk true none "p2")]
        else Except.ok [])
      100 (DBState.mk [] []) 10).2.savedCursors.map
        fun c => c.last_synced_at) =
      [none, some ⟨10, none⟩, some ⟨20, none⟩, some ⟨20, none⟩] := by
  exact ⟨rfl, rfl⟩

/-- C1 amended.  Each successfully processed non-empty page advances
`last_synced_at` to that page's maximum vendor timestamp, in the same
durable cursor write that advances the resume token; an empty page leaves
the cursor untouched; and the loop-completion write only clears the resume
token, so a zero-page run ends with `last_synced_at` unchanged (and after
pages, it keeps the value the final page's checkpoint wrote). -/
theorem C1_per_page_checkpoint :
    (∀ (it : IntegrationType) (acc : String) (ot : ObjectType) (fetch : Fetch)
        (now : Int) (st st' : LoopState),
      syncPage it acc ot fetch now st = StepResult.next st' →
      ∃ page latest,
        fetch st.cursor.get_cursor_value st.start_position = Except.ok page ∧
        page ≠ [] ∧
        pyListMax (page.map (·.last_updated_time)) = Except.ok latest ∧
        st'.cursor.last_synced_at = some latest.normUTC ∧
        st'.cursor.cursor_data = some [("start_position", st'.start_position)] ∧
        st'.savedCursors = st.savedCursors ++ [st'.cursor]) ∧
    (∀ (it : IntegrationType) (acc : String) (ot : ObjectType) (fetch : Fetch)
        (now : Int) (st st' : LoopState),
      syncPage it acc ot fetch now st = StepResult.stop st' →
      st'.cursor = st.cursor) ∧
    (∀ (it : IntegrationType) (acc : String) (ot : ObjectType)
        (cursor0 : Option SyncCursor) (fetch : Fetch) (now : Int)
        (db0 : DBState) (fuel n : Nat) (hm : Bool) (stf : LoopState),
      sync_quickbooks_objects it acc ot cursor0 fetch now db0 fuel =
        (LoopOutcome.ok n hm, stf) →
      stf.cursor.cursor_data = none ∧
      (n = 0 → stf.cursor.last_synced_at =
        (match cursor0 with
         | some c => c
         | none => freshCursor it acc ot now).last_synced_at)) := by
  refine ⟨?_, ?_, ?_⟩
  · intro it acc ot fetch now st st' h
    obtain ⟨_, _, _, hsv, _, page, latest, hp1, hp2, hp3, hp4, hp5, _, _, hp8⟩ :=
      syncPage_next_spec h
    exact ⟨page, latest, hp1, hp2, hp3, hp4, by rw [hp5, hp8], hsv⟩
  · intro it acc ot fetch now st st' h
    exact (syncPage_stop_spec h).1
  · intro it acc ot cursor0 fetch now db0 fuel n hm stf h
    obtain ⟨_, _, h3, _, _, h6⟩ := service_ok_spec h
    exact ⟨h3, fun hn => (h6 hn).1⟩

/-- Witness for C1 amended: one concrete non-empty page step. -/
theorem C1_per_page_checkpoint_witness :
    ∃ page latest,
      (fun (_ : Option PyDatetime) (_ : Int) => Except.ok (ε := String)
          [QuickBooksObject.mk "A" ⟨10, none⟩ (Payload.mk true none "p1")])
        (SyncCursor.mk IntegrationType.quickbooks "acct" ObjectType.customer
          none (PyDatetime.naive 100) SyncStatus.in_progress none none 0
          (PyDatetime.naive 0) (PyDatetime.naive 0)).get_cursor_value 1 =
        Except.ok page ∧
      page ≠ [] ∧
      pyListMax (page.map (·.last_updated_time)) = Except.ok latest ∧
      (syncPage IntegrationType.quickbooks "acct" ObjectType.customer
        (fun _ _ => Except.ok
          [QuickBooksObject.mk "A" ⟨10, none⟩ (Payload.mk true none "p1")])
        100
        (LoopState.mk
          (SyncCursor.mk IntegrationType.quickbooks "acct" ObjectType.customer
            none (PyDatetime.naive 100) SyncStatus.in_progress none none 0
            (PyDatetime.naive 0) (PyDatetime.naive 0))
          1 0 (DBState.mk [] [])
          [SyncCursor.mk IntegrationType.quickbooks "acct" ObjectType.customer
            none (PyDatetime.naive 100) SyncStatus.in_progress none none 0
            (PyDatetime.naive 0) (PyDatetime.naive 0)]
          [])).state.cursor.last_synced_at = some latest.normUTC := by
  obtain ⟨page, latest, hp1, hp2, hp3, hp4, _, _⟩ :=
    C1_per_page_checkpoint.1 IntegrationType.quickbooks "acct"
      ObjectType.customer
      (fun _ _ => Except.ok
        [QuickBooksObject.mk "A" ⟨10, none⟩ (Payload.mk true none "p1")])
      100
      (LoopState.mk
        (SyncCursor.mk IntegrationType.quickbooks "acct" ObjectType.customer
          none (PyDatetime.naive 100) SyncStatus.in_progress none none 0
          (PyDatetime.naive 0) (PyDatetime.naive 0))
        1 0 (DBState.mk [] [])
        [SyncCursor.mk IntegrationType.quickbooks "acct" ObjectType.customer
          none (PyDatetime.naive 100) SyncStatus.in_progress none none 0
          (PyDatetime.naive 0) (PyDatetime.naive 0)]
        []) _ rfl
  exact ⟨page, latest, hp1, hp2, hp3, hp4⟩

/-- First fetch of any run with fuel: the recorded call carries the
repository cursor's `last_synced_at` and the resolved start offset. -/
theorem service_first_fetch (it : IntegrationType) (acc : String)
    (ot : ObjectType) (cursor0 : Option SyncCursor) (fetch : Fetch)
    (now : Int) (db0 : DBState) (f : Nat) :
    (sync_quickbooks_objects it acc ot cursor0 fetch now db0
      (f + 1)).2.fetchCalls.head? =
      some ((match cursor0 with
        | some c => c
        | none => freshCursor it acc ot now).last_synced_at,
        initialStartPosition (match cursor0 with
          | some c => c
          | none => freshCursor it acc ot now)) := by
  simp only [sync_quickbooks_objects]
  obtain ⟨tail, htail⟩ := @syncLoop_first_fetch it acc ot fetch now f
    { cursor := (match cursor0 with
        | some c => c
        | none => freshCursor it acc ot now).mark_attempt now
      start_position := initialStartPosition ((match cursor0 with
        | some c => c
        | none => freshCursor it acc ot now).mark_attempt now)
      total_synced := 0
      db := db0
      savedCursors := [(match cursor0 with
        | some c => c
        | none => freshCursor it acc ot now).mark_attempt now]
      fetchCalls := [] }
  rw [htail]
  rfl

/-- C8.  The first fetch of a run starts at the resume token's offset when
the cursor carries one (a truthy dict with a `start_position` key), and at
offset 1 otherwise (falsy dict, missing key, or a fresh cursor); in every
case the fetch is filtered by updated-since equal to the cursor's
`last_synced_at` — `none`, meaning a full sync, when it is unset. -/
theorem C8_start_offset :
    (∀ (it : IntegrationType) (acc : String) (ot : ObjectType)
        (c : SyncCursor) (d : PyDict) (v : Int) (fetch : Fetch) (now : Int)
        (db0 : DBState) (f : Nat),
      c.cursor_data = some d → d ≠ [] →
      pyDictGet d "start_position" = some v →
      (sync_quickbooks_objects it acc ot (some c) fetch now db0
        (f + 1)).2.fetchCalls.head? = some (c.last_synced_at, v)) ∧
    (∀ (it : IntegrationType) (acc : String) (ot : ObjectType)
        (c : SyncCursor) (fetch : Fetch) (now : Int) (db0 : DBState) (f : Nat),
      pyDictTruthy c.cursor_data = false →
      (sync_quickbooks_objects it acc ot (some c) fetch now db0
        (f + 1)).2.fetchCalls.head? = some (c.last_synced_at, 1)) ∧
    (∀ (it : IntegrationType) (acc : String) (ot : ObjectType)
        (c : SyncCursor) (d : PyDict) (fetch : Fetch) (now : Int)
        (db0 : DBState) (f : Nat),
      c.cursor_data = some d → pyDictGet d "start_position" = none →
      (sync_quickbooks_objects it acc ot (some c) fetch now db0
        (f + 1)).2.fetchCalls.head? = some (c.last_synced_at, 1)) ∧
    (∀ (it : IntegrationType) (acc : String) (ot : ObjectType)
        (fetch : Fetch) (now : Int) (db0 : DBState) (f : Nat),
      (sync_quickbooks_objects it acc ot none fetch now db0
        (f + 1)).2.fetchCalls.head? = some (none, 1)) := by
  refine ⟨?_, ?_, ?_, ?_⟩
  · intro it acc ot c d v fetch now db0 f hd hne hv
    rw [service_first_fetch]
    cases d with
    | nil => exact absurd rfl hne
    | cons p ds =>
      simp [initialStartPosition, pyDictTruthy, hd, hv]
  · intro it acc ot c fetch now db0 f htr
    rw [service_first_fetch]
    simp [initialStartPosition, htr]
  · intro it acc ot c d fetch now db0 f hd hv
    rw [service_first_fetch]
    simp [initialStartPosition, pyDictTruthy, hd, hv]
  · intro it acc ot fetch now db0 f
    rw [service_first_fetch]
    rfl

/-- Witness for C8: a cursor resuming from offset 7. -/
theorem C8_start_offset_witness :
    (sync_quickbooks_objects IntegrationType.quickbooks "acct"
      ObjectType.customer
      (some (SyncCursor.mk IntegrationType.quickbooks "acct"
        ObjectType.customer (some ⟨5, none⟩) (PyDatetime.naive 0)
        SyncStatus.failure (some [("start_position", 7)]) none 3
        (PyDatetime.naive 0) (PyDatetime.naive 0)))
      (fun _ _ => Except.ok []) 100 (DBState.mk [] []) 1).2.fetchCalls.head? =
      some (some ⟨5, none⟩, 7) := by
  exact C8_start_offset.1 IntegrationType.quickbooks "acct"
    ObjectType.customer
    (SyncCursor.mk IntegrationType.quickbooks "acct" ObjectType.customer
      (some ⟨5, none⟩) (PyDatetime.naive 0) SyncStatus.failure
      (some [("start_position", 7)]) none 3 (PyDatetime.naive 0)
      (PyDatetime.naive 0))
    [("start_position", 7)] 7 (fun _ _ => Except.ok []) 100
    (DBState.mk [] []) 0 rfl (by decide) (by decide)

/-- Invariant of the per-type loop of `run_sync`: every success entry in
the result map carries the `has_more` flag its loop returned, which is
always `False`. -/
theorem runTypes_success_has_more {env : CycleEnv} {now : Int} {fuel : Nat} :
    ∀ (ts : List ObjectType) (st : CycleState)
      (acc0 results : List (String × TypeResult)) (stf : CycleState),
    runTypes env now fuel ts st acc0 = CycleResult.completed results stf →
    (∀ k n hm, (k, TypeResult.success n hm) ∈ acc0 → hm = false) →
    (∀ k n hm, (k, TypeResult.success n hm) ∈ results → hm = false) := by
  intro ts
  induction ts with
  | nil =>
    intro st acc0 results stf h hacc
    simp only [runTypes] at h
    cases h
    exact hacc
  | cons t ts ih =>
    intro st acc0 results stf h hacc
    simp only [runTypes] at h
    split at h
    · rename_i n hm heq
      refine ih _ _ _ _ h ?_
      intro k n' hm' hmem
      rw [List.mem_append] at hmem
      rcases hmem with hmem | hmem
      · exact hacc k n' hm' hmem
      · have hEq := List.mem_singleton.mp hmem
        have hpair : sync_quickbooks_objects st.account.integration_type
            st.account.external_account_id t (st.cursorOf t) (fetchFor env t)
            now st.db fuel =
            (LoopOutcome.ok n hm,
              (sync_quickbooks_objects st.account.integration_type
                st.account.external_account_id t (st.cursorOf t)
                (fetchFor env t) now st.db fuel).2) := by
          rw [← heq]
        have hfalse := (service_ok_spec hpair).1
        injection hEq with hk hres
        injection hres with hn hhm
        rw [hhm]
        exact hfalse
    · rename_i e heq
      refine ih _ _ _ _ h ?_
      intro k n' hm' hmem
      rw [List.mem_append] at hmem
      rcases hmem with hmem | hmem
      · exact hacc k n' hm' hmem
      · have hEq := List.mem_singleton.mp hmem
        injection hEq with hk hres
        cases hres
    · simp at h

/-- C10.  The result map a completed cycle returns never contains a
success entry whose `has_more` flag is `true`: the loop terminates only on
an empty page and its success dict always reports `has_more = False`. -/
theorem C10_has_more_false (env : CycleEnv)
    (account0 : Option IntegrationAccount) (cc ic : Option SyncCursor)
    (db : DBState) (now : Int) (fuel : Nat)
    (results : List (String × TypeResult)) (stf : CycleState)
    (h : run_sync env account0 cc ic db now fuel =
      CycleResult.completed results stf) :
    ∀ (k : String) (n : Nat), (k, TypeResult.success n true) ∉ results := by
  intro k n hmem
  simp only [run_sync] at h
  split at h
  · cases h
  · split at h
    · cases h
    · have := runTypes_success_has_more _ _ _ _ _ h
        (by intro k' n' hm' hmem'; cases hmem') k n true hmem
      cases this

/-- Witness for C10: a concrete completed two-type cycle. -/
theorem C10_has_more_false_witness :
    ("customer", TypeResult.success 1 true) ∉
      [("customer", TypeResult.success 1 false),
       ("invoice", TypeResult.success 0 false)] := by
  exact C10_has_more_false
    (CycleEnv.mk
      (fun _ pos => if pos = 1 then Except.ok
          [QuickBooksObject.mk "A" ⟨10, none⟩ (Payload.mk true none "p1")]
        else Except.ok [])
      (fun _ _ => Except.ok [])
      (fun _ => Except.error "unused"))
    (some (IntegrationAccount.mk IntegrationType.quickbooks "acct"
      (Credentials.mk "tok" "ref" 1000000 "Bearer") AccountStatus.active
      (PyDatetime.naive 0) (PyDatetime.naive 0)))
    none none (DBState.mk [] []) 0 10
    [("customer", TypeResult.success 1 false),
     ("invoice", TypeResult.success 0 false)] _ rfl "customer" 1

/-- C6.  In one cycle in which the customer fetch raises `e` on every
attempt and the invoice sync succeeds, the cycle still completes: the
result map records the customer failure as that type's error entry and the
invoice success (with its count) as a success entry; the customer cursor is
persisted failure-marked with `last_synced_at` unadvanced, the object store
is not touched by the failing type, and the invoice cursor alone is
advanced (status `success` when it synced at least one record). -/
theorem C6_per_type_isolation (env : CycleEnv) (account : IntegrationAccount)
    (cc ic : Option SyncCursor) (db : DBState) (now : Int) (f : Nat)
    (e : String) (n : Nat) (hm : Bool)
    (hcf : ∀ u p, env.fetchCustomers u p = Except.error e)
    (hr : CredentialPolicy.should_refresh_credentials account
      CredentialPolicy.DEFAULT_REFRESH_BUFFER_MINUTES now = false)
    (hok : (sync_quickbooks_objects account.integration_type
        account.external_account_id ObjectType.invoice ic env.fetchInvoices
        now db (f + 1)).1 = LoopOutcome.ok n hm) :
    run_sync env (some account) cc ic db now (f + 1) =
      CycleResult.completed
        [("customer", TypeResult.error e),
         ("invoice", TypeResult.success n hm)]
        (CycleState.mk account
          (some (sync_quickbooks_objects account.integration_type
            account.external_account_id ObjectType.customer cc
            env.fetchCustomers now db (f + 1)).2.cursor)
          (some (sync_quickbooks_objects account.integration_type
            account.external_account_id ObjectType.invoice ic
            env.fetchInvoices now db (f + 1)).2.cursor)
          (sync_quickbooks_objects account.integration_type
            account.external_account_id ObjectType.invoice ic
            env.fetchInvoices now db (f + 1)).2.db) ∧
    (sync_quickbooks_objects account.integration_type
      account.external_account_id ObjectType.customer cc env.fetchCustomers
      now db (f + 1)).2.cursor.status = SyncStatus.failure ∧
    (sync_quickbooks_objects account.integration_type
      account.external_account_id ObjectType.customer cc env.fetchCustomers
      now db (f + 1)).2.cursor.error_message = some e ∧
    (sync_quickbooks_objects account.integration_type
      account.external_account_id ObjectType.customer cc env.fetchCustomers
      now db (f + 1)).2.cursor.last_synced_at =
      (match cc with
       | some c => c.last_synced_at
       | none => none) ∧
    (sync_quickbooks_objects account.integration_type
      account.external_account_id ObjectType.customer cc env.fetchCustomers
      now db (f + 1)).2.db = db ∧
    (0 < n →
      (sync_quickbooks_objects account.integration_type
        account.external_account_id ObjectType.invoice ic env.fetchInvoices
        now db (f + 1)).2.cursor.status = SyncStatus.success) := by
  obtain ⟨hc1, hc2, hc3⟩ := @service_fetch_error account.integration_type
    account.external_account_id ObjectType.customer cc env.fetchCustomers
    now db f e hcf
  have hens : ensure_valid_credentials env account now = Except.ok account := by
    simp [ensure_valid_credentials, hr]
  refine ⟨?_, ?_, ?_, ?_, hc3, ?_⟩
  · simp only [run_sync, hens, QUICKBOOKS_OBJECT_TYPES, runTypes,
      CycleState.cursorOf, CycleState.setCursor, fetchFor, ObjectType.value]
    rw [hc1]
    simp only [hc3]
    rw [hok]
    rfl
  · rw [hc2]
    rfl
  · rw [hc2]
    rfl
  · rw [hc2]
    cases cc <;> rfl
  · intro hn
    have hpair : sync_quickbooks_objects account.integration_type
        account.external_account_id ObjectType.invoice ic env.fetchInvoices
        now db (f + 1) =
        (LoopOutcome.ok n hm,
          (sync_quickbooks_objects account.integration_type
            account.external_account_id ObjectType.invoice ic
            env.fetchInvoices now db (f + 1)).2) := by
      rw [← hok]
    exact ((service_ok_spec hpair).2.2.2.2.1 hn).1

/-- Witness for C6: customer fetch always raising, invoice succeeding with
one record. -/
theorem C6_per_type_isolation_witness :
    (sync_quickbooks_objects IntegrationType.quickbooks "acct"
      ObjectType.customer none (fun _ _ => Except.error "boom5") 0
      (DBState.mk [] []) 10).2.cursor.status = SyncStatus.failure ∧
    (sync_quickbooks_objects IntegrationType.quickbooks "acct"
      ObjectType.invoice none
      (fun _ pos => if pos = 1 then Except.ok
          [QuickBooksObject.mk "I1" ⟨15, none⟩ (Payload.mk true none "q1")]
        else Except.ok [])
      0 (DBState.mk [] []) 10).2.cursor.status = SyncStatus.success := by
  have h := C6_per_type_isolation
    (CycleEnv.mk (fun _ _ => Except.error "boom5")
      (fun _ pos => if pos = 1 then Except.ok
          [QuickBooksObject.mk "I1" ⟨15, none⟩ (Payload.mk true none "q1")]
        else Except.ok [])
      (fun _ => Except.error "unused"))
    (IntegrationAccount.mk IntegrationType.quickbooks "acct"
      (Credentials.mk "tok" "ref" 1000000 "Bearer") AccountStatus.active
      (PyDatetime.naive 0) (PyDatetime.naive 0))
    none none (DBState.mk [] []) 0 9 "boom5" 1 false
    (fun u p => rfl) (by decide) rfl
  exact ⟨h.2.1, h.2.2.2.2.2 (by omega)⟩

end Integration
